import Mathlib

/-!
# Verification of melonJS `ObservableVector3d` (src/unnamed/part_001)

A shallow embedding of the `ObservableVector3d` class: a mutable 3D
vector whose every coordinate mutation is routed through a user supplied
`onUpdate` callback before being committed.  Coordinates are modelled as
rationals (`ℚ`); JS `NaN`/`Infinity` are outside the model, matching the
spec's treatment of numeric degeneracy as a separate defect class.

Mutating operations are embedded as pure state transformers returning the
new vector together with the list of callback invocations they performed
(each entry records the six arguments the callback received), so that
"the callback is invoked exactly once with these arguments" is a plain
equality on that list.
-/

namespace MelonJS

/-- Stand-in type for an arbitrary JS value used as the `scope` (the `this`
binding) of an `onUpdate` callback.  Its elements are only stored and
compared, never inspected. -/
abbrev Scope := ℕ

/-- The six arguments every `onUpdate` invocation receives: the attempted
new coordinates followed by the old coordinates. -/
structure CbArgs where
  newX : ℚ
  newY : ℚ
  newZ : ℚ
  oldX : ℚ
  oldY : ℚ
  oldZ : ℚ
  deriving Repr, DecidableEq

/-- The object an `onUpdate` callback may return: each of the keys `x`,
`y`, `z` is either present with a numeric value or absent. -/
structure CbObj where
  x : Option ℚ
  y : Option ℚ
  z : Option ℚ
  deriving Repr, DecidableEq

/-- An `onUpdate` callback: receives the bound `scope` (the JS `this`,
passed via `Function.prototype.call`) and the six coordinate arguments;
returns `none` for a falsy JS return value (`undefined`, `null`, ...) or
`some o` for a returned object. -/
abbrev Callback := Option Scope → CbArgs → Option CbObj

/-- JS `a || d` for numbers `a`: `0` is falsy, every other number is
truthy (`NaN` is outside the model). -/
def jsNumOr (a d : ℚ) : ℚ :=
  if a = 0 then d else a

/-- JS `v.z || d` where the property `z` may be absent (`undefined`, which
is falsy): `none` models an absent `z`. -/
def jsOptOr (a : Option ℚ) (d : ℚ) : ℚ :=
  match a with
  | none => d
  | some q => jsNumOr q d

/-- An argument vector as the 3D operations receive it: `x` and `y` are
always present, `z` is absent (`none`) when a 2D vector is passed. -/
structure Vec3Arg where
  x : ℚ
  y : ℚ
  z : Option ℚ
  deriving Repr, DecidableEq

/-- The observable vector: coordinate fields `_x`, `_y`, `_z` (exposed
through the `x`/`y`/`z` getters), the bound `onUpdate` callback and its
`scope`. -/
structure ObservableVector3d where
  x : ℚ
  y : ℚ
  z : ℚ
  onUpdate : Callback
  scope : Option Scope

/-- The internal batch write `_set(x, y, z)`: invokes `onUpdate` once with
the attempted and old coordinates; if the return value is a truthy object
carrying all three keys `x`, `y`, `z`, all three components are taken from
it, otherwise the attempted values are committed (the `z` slot through
JS `z || 0`). -/
def ObservableVector3d._set (v : ObservableVector3d) (x y z : ℚ) :
    ObservableVector3d × List CbArgs :=
  let args : CbArgs := ⟨x, y, z, v.x, v.y, v.z⟩
  let ret := v.onUpdate v.scope args
  let v' :=
    match ret with
    | some o =>
      match o.x, o.y, o.z with
      | some rx, some ry, some rz => { v with x := rx, y := ry, z := rz }
      | _, _, _ => { v with x := x, y := y, z := jsNumOr z 0 }
    | none => { v with x := x, y := y, z := jsNumOr z 0 }
  (v', [args])

/-- The property setter `x = value`: invokes `onUpdate` once with
`(value, _y, _z, _x, _y, _z)`; commits the returned `x` when the return
is a truthy object carrying the key `x`, otherwise commits `value`. -/
def ObservableVector3d.setX (v : ObservableVector3d) (value : ℚ) :
    ObservableVector3d × List CbArgs :=
  let args : CbArgs := ⟨value, v.y, v.z, v.x, v.y, v.z⟩
  let ret := v.onUpdate v.scope args
  let v' :=
    match ret with
    | some o =>
      match o.x with
      | some rx => { v with x := rx }
      | none => { v with x := value }
    | none => { v with x := value }
  (v', [args])

/-- The property setter `y = value` (symmetric to `setX`). -/
def ObservableVector3d.setY (v : ObservableVector3d) (value : ℚ) :
    ObservableVector3d × List CbArgs :=
  let args : CbArgs := ⟨v.x, value, v.z, v.x, v.y, v.z⟩
  let ret := v.onUpdate v.scope args
  let v' :=
    match ret with
    | some o =>
      match o.y with
      | some ry => { v with y := ry }
      | none => { v with y := value }
    | none => { v with y := value }
  (v', [args])

/-- The property setter `z = value` (symmetric to `setX`). -/
def ObservableVector3d.setZ (v : ObservableVector3d) (value : ℚ) :
    ObservableVector3d × List CbArgs :=
  let args : CbArgs := ⟨v.x, v.y, value, v.x, v.y, v.z⟩
  let ret := v.onUpdate v.scope args
  let v' :=
    match ret with
    | some o =>
      match o.z with
      | some rz => { v with z := rz }
      | none => { v with z := value }
    | none => { v with z := value }
  (v', [args])

/-- Source `add(v)`: `_set(_x + v.x, _y + v.y, _z + (v.z || 0))`. -/
def ObservableVector3d.add (v : ObservableVector3d) (w : Vec3Arg) :
    ObservableVector3d × List CbArgs :=
  v._set (v.x + w.x) (v.y + w.y) (v.z + jsOptOr w.z 0)

/-- Source `sub(v)`: `_set(_x - v.x, _y - v.y, _z - (v.z || 0))`. -/
def ObservableVector3d.sub (v : ObservableVector3d) (w : Vec3Arg) :
    ObservableVector3d × List CbArgs :=
  v._set (v.x - w.x) (v.y - w.y) (v.z - jsOptOr w.z 0)

/-- Source `scaleV(v)`: `_set(_x * v.x, _y * v.y, _z * (v.z || 1))`. -/
def ObservableVector3d.scaleV (v : ObservableVector3d) (w : Vec3Arg) :
    ObservableVector3d × List CbArgs :=
  v._set (v.x * w.x) (v.y * w.y) (v.z * jsOptOr w.z 1)

/-- Source `dot(v)`: `_x * v.x + _y * v.y + _z * (v.z || 1)`. -/
def ObservableVector3d.dot (v : ObservableVector3d) (w : Vec3Arg) : ℚ :=
  v.x * w.x + v.y * w.y + v.z * jsOptOr w.z 1

/-- Source `equals(v)`: `_x === v.x && _y === v.y && _z === (v.z || _z)`. -/
def ObservableVector3d.equals (v : ObservableVector3d) (w : Vec3Arg) : Bool :=
  decide (v.x = w.x) && decide (v.y = w.y) && decide (v.z = jsOptOr w.z v.z)

/-- The callback used by the repository's recording test: it stores its
arguments and returns `undefined`. -/
def cbNone : Callback := fun _ _ => none

/-- Source `setMuted(x, y, z)`: sets the coordinates without invoking the
callback (`_z` through JS `z || 0`, the `z` parameter being optional). -/
def ObservableVector3d.setMuted (v : ObservableVector3d) (x y : ℚ) (z : Option ℚ) :
    ObservableVector3d :=
  { v with x := x, y := y, z := jsOptOr z 0 }

/-- A JS value passed where a function is expected: either an actual
function or any value whose `typeof` is not `"function"` (`undefined`, a
number, an object, ...). -/
inductive JSFun where
  | func : Callback → JSFun
  | notFunc : JSFun

/-- The `settings` object of the constructor / `onResetEvent` /
`setCallback` path: an `onUpdate` slot and an optional `scope`. -/
structure Settings where
  onUpdate : JSFun
  scope : Option Scope

/-- Source `setCallback(fn, scope = null)`: throws when `fn` is not callable
(before any assignment, so the previous binding is left intact),
otherwise replaces the bound callback and scope. -/
def ObservableVector3d.setCallback (v : ObservableVector3d) (fn : JSFun)
    (scope : Option Scope) : Except String ObservableVector3d :=
  match fn with
  | .notFunc => .error "invalid onUpdate callback"
  | .func f => .ok { v with onUpdate := f, scope := scope }

/-- Source `onResetEvent(x, y, z, settings)` (the pool's reset entry point):
reinitializes the coordinates through `setMuted` (no callback invocation,
hence the empty trace), then rebinds callback and scope via `setCallback`
only when a `settings` object is supplied. -/
def ObservableVector3d.onResetEvent (v : ObservableVector3d) (x y : ℚ)
    (z : Option ℚ) (settings : Option Settings) :
    Except String (ObservableVector3d × List CbArgs) :=
  let v1 := v.setMuted x y z
  match settings with
  | none => .ok (v1, [])
  | some s =>
    match v1.setCallback s.onUpdate s.scope with
    | .error e => .error e
    | .ok v2 => .ok (v2, [])

/-- The constructor `new ObservableVector3d(x, y, z, settings)`.
`super(x, y, z)` initializes the coordinates mutely (the source comments
"init is call by the constructor and does not trigger the cb"; the
`Vector3d` base class is outside this file, so that step is the
`setMuted` path).  Then the constructor throws when `settings` is
`undefined`, and otherwise runs `setCallback(settings.onUpdate,
settings.scope)`, which throws when `onUpdate` is not callable.  The
pre-binding object is modelled with an inert callback; it is never
observable because construction either binds `settings.onUpdate` or
fails.  The empty trace records that construction fires no callback. -/
def ObservableVector3d.new (x y : ℚ) (z : Option ℚ) (settings : Option Settings) :
    Except String (ObservableVector3d × List CbArgs) :=
  let base : ObservableVector3d :=
    { x := x, y := y, z := jsOptOr z 0, onUpdate := fun _ _ => none, scope := none }
  match settings with
  | none => .error "undefined onUpdate callback"
  | some s =>
    match base.setCallback s.onUpdate s.scope with
    | .error e => .error e
    | .ok v => .ok (v, [])

/-- Modelled from the spec: `pool.pull("ObservableVector3d", x, y, z,
settings)` (the pool itself, `src/system/pooling.js`, is not among the
given files).  Per spec section 4.4 it returns "either a freshly
constructed" instance "or a recycled instance whose state has been reset
via its muted-reset entry point, applying the given constructor arguments
without firing observer callbacks": the fresh path is the constructor,
the recycled path is `onResetEvent` on the recycled instance. -/
def poolPullObservableVector3d (recycled : Option ObservableVector3d)
    (x y : ℚ) (z : Option ℚ) (settings : Settings) :
    Except String (ObservableVector3d × List CbArgs) :=
  match recycled with
  | none => ObservableVector3d.new x y z (some settings)
  | some w => w.onResetEvent x y z (some settings)

/-- Source `clone()`: `pool.pull("ObservableVector3d", _x, _y, _z,
{ onUpdate: this.onUpdate })` — the settings object carries the callback
but no `scope` key, so the clone's scope is the `setCallback` default
`null`. -/
def ObservableVector3d.clone (recycled : Option ObservableVector3d)
    (v : ObservableVector3d) : Except String (ObservableVector3d × List CbArgs) :=
  poolPullObservableVector3d recycled v.x v.y (some v.z)
    { onUpdate := .func v.onUpdate, scope := none }

/-- JS `this._Z < 0`: the field `_Z` (capital Z) is never defined
anywhere in the class, so the comparison is `undefined < 0`, which
evaluates to `false`. -/
def undefinedLtZero : Bool := false

/-- Source `abs()`: `_set(_x < 0 ? -_x : _x, _y < 0 ? -_y : _y,
_Z < 0 ? -_z : _z)` — the third condition reads the undefined `_Z`
field, so its negation branch is unreachable. -/
def ObservableVector3d.abs (v : ObservableVector3d) :
    ObservableVector3d × List CbArgs :=
  v._set
    (if v.x < 0 then -v.x else v.x)
    (if v.y < 0 then -v.y else v.y)
    (if undefinedLtZero then -v.z else v.z)

/-- Which object a `moveTowards` call returned: the early branch returns
the `target` argument itself, the stepping branch returns `this`. -/
inductive MoveTowardsResult where
  | returnedTarget : MoveTowardsResult
  | returnedSelf : MoveTowardsResult
  deriving Repr, DecidableEq

/-- Source `moveTowards(target, step)`, parametrized by the real-valued library
functions it calls (`Math.atan2`, `Math.cos`, `Math.sin`, `Math.sqrt`),
so the embedding stays executable; theorems constrain them where needed.
Computes the angle towards `target`, the XY `distance`, and either takes
the early branch `return target` — when `distance === 0` or
`step >= 0 && distance <= step * step` — leaving `this` untouched, or
commits `(x + cos(angle)*step, y + sin(angle)*step, z)` through `_set`. -/
def ObservableVector3d.moveTowards (atan2 : ℚ → ℚ → ℚ) (cos sin sqrt : ℚ → ℚ)
    (v : ObservableVector3d) (target : Vec3Arg) (step : ℚ) :
    ObservableVector3d × MoveTowardsResult × List CbArgs :=
  let angle := atan2 (target.y - v.y) (target.x - v.x)
  let dx := v.x - target.x
  let dy := v.y - target.y
  let distance := sqrt (dx * dx + dy * dy)
  if distance = 0 ∨ (0 ≤ step ∧ distance ≤ step * step) then
    (v, .returnedTarget, [])
  else
    let r := v._set (v.x + cos angle * step) (v.y + sin angle * step) v.z
    (r.1, .returnedSelf, r.2)

/-! ## Helper lemmas -/

theorem jsNumOr_zero (z : ℚ) : jsNumOr z 0 = z := by
  unfold jsNumOr
  split <;> simp_all

theorem jsOptOr_none (d : ℚ) : jsOptOr none d = d := rfl

theorem jsOptOr_some (q d : ℚ) : jsOptOr (some q) d = jsNumOr q d := rfl

theorem ite_neg_abs (x : ℚ) : (if x < 0 then -x else x) = |x| := by
  split
  · exact (abs_of_neg (by assumption)).symm
  · exact (abs_of_nonneg (by linarith)).symm

/-- Lemma: `_set` commits the attempted values verbatim whenever the callback's
return is not an object carrying all three keys (the `z || 0` in the
source collapses to `z` on numbers). -/
theorem set_commit_verbatim (v : ObservableVector3d) (x y z : ℚ)
    (h : ∀ o, v.onUpdate v.scope ⟨x, y, z, v.x, v.y, v.z⟩ = some o →
      o.x = none ∨ o.y = none ∨ o.z = none) :
    (v._set x y z).1 = { v with x := x, y := y, z := z } := by
  unfold ObservableVector3d._set
  rcases hr : v.onUpdate v.scope ⟨x, y, z, v.x, v.y, v.z⟩ with - | o
  · simp only [hr, jsNumOr_zero]
  · obtain ⟨ox, oy, oz⟩ := o
    have hp := h ⟨ox, oy, oz⟩ hr
    rcases ox with - | rx <;> rcases oy with - | ry <;> rcases oz with - | rz <;>
      simp_all [jsNumOr_zero]

/-! ## Claims -/

/-- Claim C1: every batch mutation through `_set` invokes the bound callback
exactly once with the attempted new coordinates followed by the old ones;
a return carrying all three keys `x`, `y`, `z` overwrites all three
components, and any other return (including a partial one) commits all
three attempted values verbatim.  In particular `add(Vector3d(10,10,10))`
on `(10,100,20)` with the recording callback fires one invocation with
new `(20,110,30)` and old `(10,100,20)`, and afterwards `y = oldY + 10`. -/
theorem batch_set_notifies_once_and_commits :
    (∀ (v : ObservableVector3d) (x y z : ℚ),
      (v._set x y z).2 = [⟨x, y, z, v.x, v.y, v.z⟩]
      ∧ (∀ o rx ry rz, v.onUpdate v.scope ⟨x, y, z, v.x, v.y, v.z⟩ = some o →
          o.x = some rx → o.y = some ry → o.z = some rz →
          (v._set x y z).1 = { v with x := rx, y := ry, z := rz })
      ∧ ((∀ o, v.onUpdate v.scope ⟨x, y, z, v.x, v.y, v.z⟩ = some o →
          o.x = none ∨ o.y = none ∨ o.z = none) →
          (v._set x y z).1 = { v with x := x, y := y, z := z }))
    ∧ ((ObservableVector3d.add ⟨10, 100, 20, cbNone, none⟩ ⟨10, 10, some 10⟩).2 =
        [⟨20, 110, 30, 10, 100, 20⟩]
      ∧ (ObservableVector3d.add ⟨10, 100, 20, cbNone, none⟩ ⟨10, 10, some 10⟩).1.y =
        100 + 10) := by
  constructor
  · intro v x y z
    refine ⟨rfl, ?_, ?_⟩
    · intro o rx ry rz hret hx hy hz
      simp only [ObservableVector3d._set, hret, hx, hy, hz]
    · intro hpartial
      unfold ObservableVector3d._set
      rcases hr : v.onUpdate v.scope ⟨x, y, z, v.x, v.y, v.z⟩ with - | o
      · simp only [hr, jsNumOr_zero]
      · obtain ⟨ox, oy, oz⟩ := o
        have h := hpartial ⟨ox, oy, oz⟩ hr
        rcases ox with - | rx <;> rcases oy with - | ry <;> rcases oz with - | rz <;>
          simp_all [jsNumOr_zero]
  · refine ⟨?_, ?_⟩ <;>
      norm_num [ObservableVector3d.add, ObservableVector3d._set, cbNone, jsOptOr,
        jsNumOr]

/-- Claim C2: the property write `x = value` invokes the callback exactly once
with `(value, _y, _z, oldX, oldY, oldZ)`; a return carrying the key `x`
overrides the committed `x`, any other return commits `value`; the stored
`y` and `z` are untouched on every path — and symmetrically for the `y`
and `z` setters. -/
theorem coordinate_setter_semantics :
    (∀ (v : ObservableVector3d) (value : ℚ),
      (v.setX value).2 = [⟨value, v.y, v.z, v.x, v.y, v.z⟩]
      ∧ (∀ o k, v.onUpdate v.scope ⟨value, v.y, v.z, v.x, v.y, v.z⟩ = some o →
          o.x = some k → (v.setX value).1.x = k)
      ∧ ((∀ o, v.onUpdate v.scope ⟨value, v.y, v.z, v.x, v.y, v.z⟩ = some o →
          o.x = none) → (v.setX value).1.x = value)
      ∧ (v.setX value).1.y = v.y ∧ (v.setX value).1.z = v.z)
    ∧ (∀ (v : ObservableVector3d) (value : ℚ),
      (v.setY value).2 = [⟨v.x, value, v.z, v.x, v.y, v.z⟩]
      ∧ (∀ o k, v.onUpdate v.scope ⟨v.x, value, v.z, v.x, v.y, v.z⟩ = some o →
          o.y = some k → (v.setY value).1.y = k)
      ∧ ((∀ o, v.onUpdate v.scope ⟨v.x, value, v.z, v.x, v.y, v.z⟩ = some o →
          o.y = none) → (v.setY value).1.y = value)
      ∧ (v.setY value).1.x = v.x ∧ (v.setY value).1.z = v.z)
    ∧ (∀ (v : ObservableVector3d) (value : ℚ),
      (v.setZ value).2 = [⟨v.x, v.y, value, v.x, v.y, v.z⟩]
      ∧ (∀ o k, v.onUpdate v.scope ⟨v.x, v.y, value, v.x, v.y, v.z⟩ = some o →
          o.z = some k → (v.setZ value).1.z = k)
      ∧ ((∀ o, v.onUpdate v.scope ⟨v.x, v.y, value, v.x, v.y, v.z⟩ = some o →
          o.z = none) → (v.setZ value).1.z = value)
      ∧ (v.setZ value).1.x = v.x ∧ (v.setZ value).1.y = v.y) := by
  refine ⟨fun v value => ?_, fun v value => ?_, fun v value => ?_⟩
  · refine ⟨rfl, ?_, ?_, ?_, ?_⟩
    · intro o k hret hk
      simp only [ObservableVector3d.setX, hret, hk]
    · intro hnone
      unfold ObservableVector3d.setX
      rcases hr : v.onUpdate v.scope ⟨value, v.y, v.z, v.x, v.y, v.z⟩ with - | o
      · simp only [hr]
      · simp only [hr, hnone o hr]
    all_goals
      unfold ObservableVector3d.setX
      rcases hr : v.onUpdate v.scope ⟨value, v.y, v.z, v.x, v.y, v.z⟩ with - | o
      · simp only [hr]
      · rcases ho : o.x with - | rx <;> simp only [hr, ho]
  · refine ⟨rfl, ?_, ?_, ?_, ?_⟩
    · intro o k hret hk
      simp only [ObservableVector3d.setY, hret, hk]
    · intro hnone
      unfold ObservableVector3d.setY
      rcases hr : v.onUpdate v.scope ⟨v.x, value, v.z, v.x, v.y, v.z⟩ with - | o
      · simp only [hr]
      · simp only [hr, hnone o hr]
    all_goals
      unfold ObservableVector3d.setY
      rcases hr : v.onUpdate v.scope ⟨v.x, value, v.z, v.x, v.y, v.z⟩ with - | o
      · simp only [hr]
      · rcases ho : o.y with - | ry <;> simp only [hr, ho]
  · refine ⟨rfl, ?_, ?_, ?_, ?_⟩
    · intro o k hret hk
      simp only [ObservableVector3d.setZ, hret, hk]
    · intro hnone
      unfold ObservableVector3d.setZ
      rcases hr : v.onUpdate v.scope ⟨v.x, v.y, value, v.x, v.y, v.z⟩ with - | o
      · simp only [hr]
      · simp only [hr, hnone o hr]
    all_goals
      unfold ObservableVector3d.setZ
      rcases hr : v.onUpdate v.scope ⟨v.x, v.y, value, v.x, v.y, v.z⟩ with - | o
      · simp only [hr]
      · rcases ho : o.z with - | rz <;> simp only [hr, ho]

/-- Claim C3: constructing an `ObservableVector3d` without a settings object
carrying a callable `onUpdate` is an immediate error, and `setCallback`
with a non-callable value throws before any assignment (the previous
binding stays intact); with a function it replaces callback and scope. -/
theorem callback_binding_errors :
    (∀ (x y : ℚ) (z : Option ℚ),
      ObservableVector3d.new x y z none = .error "undefined onUpdate callback")
    ∧ (∀ (x y : ℚ) (z : Option ℚ) (sc : Option Scope),
      ObservableVector3d.new x y z (some ⟨.notFunc, sc⟩) =
        .error "invalid onUpdate callback")
    ∧ (∀ (v : ObservableVector3d) (sc : Option Scope),
      v.setCallback .notFunc sc = .error "invalid onUpdate callback")
    ∧ (∀ (v : ObservableVector3d) (f : Callback) (sc : Option Scope),
      v.setCallback (.func f) sc = .ok { v with onUpdate := f, scope := sc }) :=
  ⟨fun _ _ _ => rfl, fun _ _ _ _ => rfl, fun _ _ => rfl, fun _ _ _ => rfl⟩

/-- Claim C5: an argument vector lacking `z` is treated as `z = 0` by `add` and
`sub` (this vector's `z` is the attempted and, absent a full override,
the committed value) and as `z = 1` by `scaleV` and `dot` (scaling by a
missing axis is a no-op, and `dot` contributes `_z * 1`). -/
theorem missing_z_additive_zero_multiplicative_one :
    ∀ (v : ObservableVector3d) (wx wy : ℚ),
      v.add ⟨wx, wy, none⟩ = v._set (v.x + wx) (v.y + wy) v.z
      ∧ v.sub ⟨wx, wy, none⟩ = v._set (v.x - wx) (v.y - wy) v.z
      ∧ v.scaleV ⟨wx, wy, none⟩ = v._set (v.x * wx) (v.y * wy) (v.z * 1)
      ∧ v.dot ⟨wx, wy, none⟩ = v.x * wx + v.y * wy + v.z * 1
      ∧ (v.add ⟨wx, wy, none⟩).2 = [⟨v.x + wx, v.y + wy, v.z, v.x, v.y, v.z⟩]
      ∧ ((∀ o, v.onUpdate v.scope ⟨v.x + wx, v.y + wy, v.z, v.x, v.y, v.z⟩ = some o →
          o.x = none ∨ o.y = none ∨ o.z = none) →
          (v.add ⟨wx, wy, none⟩).1.z = v.z)
      ∧ ((∀ o, v.onUpdate v.scope ⟨v.x * wx, v.y * wy, v.z, v.x, v.y, v.z⟩ = some o →
          o.x = none ∨ o.y = none ∨ o.z = none) →
          (v.scaleV ⟨wx, wy, none⟩).1.z = v.z) := by
  intro v wx wy
  have hadd : v.add ⟨wx, wy, none⟩ = v._set (v.x + wx) (v.y + wy) v.z := by
    simp [ObservableVector3d.add, jsOptOr]
  have hscale : v.scaleV ⟨wx, wy, none⟩ = v._set (v.x * wx) (v.y * wy) (v.z * 1) := by
    simp [ObservableVector3d.scaleV, jsOptOr]
  refine ⟨hadd, ?_, hscale, ?_, ?_, ?_, ?_⟩
  · simp [ObservableVector3d.sub, jsOptOr]
  · simp [ObservableVector3d.dot, jsOptOr]
  · rw [hadd]
    rfl
  · intro h
    rw [hadd, set_commit_verbatim v _ _ _ h]
  · intro h
    rw [hscale, mul_one, set_commit_verbatim v _ _ _ h]

/-- Claim C6 counterexample: on `this = (1,2,5)` and an argument that carries
`z = 0`, `equals` returns `true` although `this.z` (5) differs from the
argument's `z` (0): the `v.z || this._z` in the source treats a present
but zero `z` like a missing one. -/
theorem equals_zero_z_counterexample :
    ObservableVector3d.equals ⟨1, 2, 5, cbNone, none⟩ ⟨1, 2, some 0⟩ = true
    ∧ (5 : ℚ) ≠ 0 := by
  constructor
  · norm_num [ObservableVector3d.equals, jsOptOr, jsNumOr]
  · norm_num

/-- Claim C6 amended: `equals(v)` is componentwise exact equality on `x` and
`y`, while on the `z` axis the argument's `z` is compared only when it is
present AND nonzero; a missing or zero `z` on the argument always matches
this vector's own `z`. -/
theorem equals_componentwise_spec :
    ∀ (v : ObservableVector3d) (w : Vec3Arg),
      v.equals w = true ↔
        (v.x = w.x ∧ v.y = w.y ∧ ∀ zw, w.z = some zw → zw ≠ 0 → v.z = zw) := by
  intro v w
  unfold ObservableVector3d.equals
  rcases w with ⟨wx, wy, - | zw⟩
  · simp [jsOptOr]
  · by_cases hz : zw = 0
    · subst hz
      simp [jsOptOr, jsNumOr]
    · simp [jsOptOr, jsNumOr, hz]
      exact and_assoc

/-- Claim C7: `setMuted` and `onResetEvent` reinitialize the coordinates with
zero callback invocations (the traces are empty, and construction's trace
is empty as well); `onResetEvent` rebinds callback and scope exactly when
a settings object is supplied, and otherwise retains the bound ones. -/
theorem muted_reset_spec :
    (∀ (v : ObservableVector3d) (x y : ℚ) (z : Option ℚ),
      v.setMuted x y z =
        { x := x, y := y, z := jsOptOr z 0, onUpdate := v.onUpdate, scope := v.scope })
    ∧ (∀ (v : ObservableVector3d) (x y : ℚ) (z : Option ℚ),
      v.onResetEvent x y z none =
        .ok ({ x := x, y := y, z := jsOptOr z 0, onUpdate := v.onUpdate,
               scope := v.scope }, []))
    ∧ (∀ (v : ObservableVector3d) (x y : ℚ) (z : Option ℚ) (f : Callback)
        (sc : Option Scope),
      v.onResetEvent x y z (some ⟨.func f, sc⟩) =
        .ok ({ x := x, y := y, z := jsOptOr z 0, onUpdate := f, scope := sc }, []))
    ∧ (∀ (x y : ℚ) (z : Option ℚ) (f : Callback) (sc : Option Scope),
      ObservableVector3d.new x y z (some ⟨.func f, sc⟩) =
        .ok ({ x := x, y := y, z := jsOptOr z 0, onUpdate := f, scope := sc }, [])) :=
  ⟨fun _ _ _ _ => rfl, fun _ _ _ _ => rfl, fun _ _ _ _ _ _ => rfl,
    fun _ _ _ _ _ => rfl⟩

/-- Claim C8: `clone()` (through the pool, on both the fresh-construction and
the recycled path) yields a vector with the same coordinates — so
`v.clone().equals(v)` — with this vector's `onUpdate` bound but the
scope not carried over (it is `null` on the clone). -/
theorem clone_same_coordinates_no_scope :
    ∀ (recycled : Option ObservableVector3d) (v : ObservableVector3d),
      ObservableVector3d.clone recycled v =
        .ok ({ x := v.x, y := v.y, z := v.z, onUpdate := v.onUpdate,
               scope := none }, [])
      ∧ ObservableVector3d.equals
          { x := v.x, y := v.y, z := v.z, onUpdate := v.onUpdate, scope := none }
          ⟨v.x, v.y, some v.z⟩ = true := by
  intro recycled v
  constructor
  · rcases recycled with - | w <;>
      simp [ObservableVector3d.clone, poolPullObservableVector3d,
        ObservableVector3d.new, ObservableVector3d.onResetEvent,
        ObservableVector3d.setMuted, ObservableVector3d.setCallback,
        jsOptOr, jsNumOr_zero]
  · simp [ObservableVector3d.equals, jsOptOr, jsNumOr]

/-- Claim C9: `abs()` attempts to commit `(|x|, |y|, z)`: the third argument of
the batch write is always the current `z`, never negated even when `z` is
negative, because the sign test reads the never-defined `_Z` field and
`undefined < 0` is `false`; `x` and `y` are made non-negative. -/
theorem abs_z_never_negated :
    ∀ v : ObservableVector3d,
      v.abs = v._set |v.x| |v.y| v.z
      ∧ (v.abs).2 = [⟨|v.x|, |v.y|, v.z, v.x, v.y, v.z⟩] := by
  intro v
  have h : v.abs = v._set |v.x| |v.y| v.z := by
    simp [ObservableVector3d.abs, undefinedLtZero, ite_neg_abs]
  exact ⟨h, by rw [h]; rfl⟩

/-- Claim C10: `dot` and `scaleV` conflate an argument whose `z` is exactly `0`
with one whose `z` is missing: `dot` contributes `_z * 1` (not `0`) and
`scaleV` multiplies this `z` by `1` (so, absent a full override, the
committed `z` is unchanged). -/
theorem zero_z_conflated_with_missing :
    ∀ (v : ObservableVector3d) (wx wy : ℚ),
      v.dot ⟨wx, wy, some 0⟩ = v.x * wx + v.y * wy + v.z * 1
      ∧ v.dot ⟨wx, wy, some 0⟩ = v.dot ⟨wx, wy, none⟩
      ∧ v.scaleV ⟨wx, wy, some 0⟩ = v._set (v.x * wx) (v.y * wy) (v.z * 1)
      ∧ v.scaleV ⟨wx, wy, some 0⟩ = v.scaleV ⟨wx, wy, none⟩
      ∧ (v.scaleV ⟨wx, wy, some 0⟩).2 = [⟨v.x * wx, v.y * wy, v.z, v.x, v.y, v.z⟩]
      ∧ ((∀ o, v.onUpdate v.scope ⟨v.x * wx, v.y * wy, v.z, v.x, v.y, v.z⟩ = some o →
          o.x = none ∨ o.y = none ∨ o.z = none) →
          (v.scaleV ⟨wx, wy, some 0⟩).1.z = v.z) := by
  intro v wx wy
  have hscale : v.scaleV ⟨wx, wy, some 0⟩ = v._set (v.x * wx) (v.y * wy) (v.z * 1) := by
    simp [ObservableVector3d.scaleV, jsOptOr, jsNumOr]
  refine ⟨?_, ?_, hscale, ?_, ?_, ?_⟩
  · simp [ObservableVector3d.dot, jsOptOr, jsNumOr]
  · simp [ObservableVector3d.dot, jsOptOr, jsNumOr]
  · simp [ObservableVector3d.scaleV, jsOptOr, jsNumOr]
  · rw [hscale, mul_one]
    rfl
  · intro h
    rw [hscale, mul_one, set_commit_verbatim v _ _ _ h]

/-- Claim C4 counterexample: `this = (0, 0, 5)`, `target = (3, 4, 7)`,
`step = 23/10`.  The XY distance is exactly 5 (the `sqrt` argument is
`(0-3)² + (0-4)² = 25`, and the supplied square root is exact there), so
the vector is NOT within `step = 2.3` of the target, and the claim's own
squared-distance check `25 ≤ step*step = 5.29` fails as well — yet the
code takes the early branch (it compares the UNsquared distance `5`
against `step*step = 5.29`), and that branch does not snap this vector to
the target's coordinates: it returns the `target` object itself and
leaves this vector at `(0, 0, 5)`, whose `x` (0) differs from the
target's `x` (3). -/
theorem moveTowards_early_return_counterexample :
    ObservableVector3d.moveTowards (fun _ _ => 0) (fun _ => 0) (fun _ => 0)
        (fun q => if q = 25 then 5 else 0)
        ⟨0, 0, 5, cbNone, none⟩ ⟨3, 4, some 7⟩ (23 / 10) =
      (⟨0, 0, 5, cbNone, none⟩, .returnedTarget, [])
    ∧ (5 : ℚ) * 5 = ((0 : ℚ) - 3) * ((0 : ℚ) - 3) + ((0 : ℚ) - 4) * ((0 : ℚ) - 4)
    ∧ ¬((5 : ℚ) ≤ 23 / 10)
    ∧ ¬((5 : ℚ) * 5 ≤ (23 / 10) * (23 / 10))
    ∧ (0 : ℚ) ≠ 3 := by
  refine ⟨?_, by norm_num, by norm_num, by norm_num, by norm_num⟩
  unfold ObservableVector3d.moveTowards
  norm_num

/-- Claim C4 amended: with library functions that are exact at the call site
(`sqrt` returning the true non-negative root `d` of the squared XY
distance, and `cos`/`sin` of the `atan2` angle being the direction
cosines towards the target), `moveTowards(target, step)`:
when `d = 0`, or `step ≥ 0` and the UNsquared distance `d` is at most
`step * step`, returns the `target` object itself, leaving this vector's
coordinates unchanged and invoking no callback; otherwise it commits,
through the batch path and its single callback invocation,
`(x + cos(angle)·step, y + sin(angle)·step, z)` — a move in the XY plane
only, with `z` carried through unchanged, of exactly `|step|` (the
squared displacement is `step²`), landing at squared distance
`(d - step)²` from the target, so a negative `step` moves the vector
strictly away from the target. -/
theorem moveTowards_spec (atan2 : ℚ → ℚ → ℚ) (cos sin sqrt : ℚ → ℚ)
    (v : ObservableVector3d) (t : Vec3Arg) (step d : ℚ)
    (hsqrt : sqrt ((v.x - t.x) * (v.x - t.x) + (v.y - t.y) * (v.y - t.y)) = d)
    (hd2 : d * d = (v.x - t.x) * (v.x - t.x) + (v.y - t.y) * (v.y - t.y))
    (hdnn : 0 ≤ d)
    (hcos : cos (atan2 (t.y - v.y) (t.x - v.x)) * d = t.x - v.x)
    (hsin : sin (atan2 (t.y - v.y) (t.x - v.x)) * d = t.y - v.y) :
    ((d = 0 ∨ (0 ≤ step ∧ d ≤ step * step)) →
      v.moveTowards atan2 cos sin sqrt t step = (v, .returnedTarget, []))
    ∧ (¬(d = 0 ∨ (0 ≤ step ∧ d ≤ step * step)) →
      (v.moveTowards atan2 cos sin sqrt t step).2.1 = .returnedSelf
      ∧ (v.moveTowards atan2 cos sin sqrt t step).2.2 =
          [⟨v.x + cos (atan2 (t.y - v.y) (t.x - v.x)) * step,
            v.y + sin (atan2 (t.y - v.y) (t.x - v.x)) * step, v.z,
            v.x, v.y, v.z⟩]
      ∧ (cos (atan2 (t.y - v.y) (t.x - v.x)) * step) *
            (cos (atan2 (t.y - v.y) (t.x - v.x)) * step) +
          (sin (atan2 (t.y - v.y) (t.x - v.x)) * step) *
            (sin (atan2 (t.y - v.y) (t.x - v.x)) * step) = step * step
      ∧ ((v.x + cos (atan2 (t.y - v.y) (t.x - v.x)) * step) - t.x) *
            ((v.x + cos (atan2 (t.y - v.y) (t.x - v.x)) * step) - t.x) +
          ((v.y + sin (atan2 (t.y - v.y) (t.x - v.x)) * step) - t.y) *
            ((v.y + sin (atan2 (t.y - v.y) (t.x - v.x)) * step) - t.y) =
          (d - step) * (d - step)
      ∧ (step < 0 → d * d <
          ((v.x + cos (atan2 (t.y - v.y) (t.x - v.x)) * step) - t.x) *
            ((v.x + cos (atan2 (t.y - v.y) (t.x - v.x)) * step) - t.x) +
          ((v.y + sin (atan2 (t.y - v.y) (t.x - v.x)) * step) - t.y) *
            ((v.y + sin (atan2 (t.y - v.y) (t.x - v.x)) * step) - t.y))) := by
  constructor
  · intro hcond
    unfold ObservableVector3d.moveTowards
    simp only [hsqrt]
    rw [if_pos hcond]
  · intro hcond
    have hdne : d ≠ 0 := fun h0 => hcond (Or.inl h0)
    have hdpos : 0 < d := lt_of_le_of_ne hdnn (Ne.symm hdne)
    set c := cos (atan2 (t.y - v.y) (t.x - v.x)) with hc
    set s := sin (atan2 (t.y - v.y) (t.x - v.x)) with hs
    have hkey : (c * c + s * s) * (d * d) = 1 * (d * d) := by
      linear_combination (c * d + (t.x - v.x)) * hcos +
        (s * d + (t.y - v.y)) * hsin - hd2
    have hcs : c * c + s * s = 1 :=
      mul_right_cancel₀ (mul_ne_zero hdne hdne) hkey
    have hbranch :
        v.moveTowards atan2 cos sin sqrt t step =
          ((v._set (v.x + c * step) (v.y + s * step) v.z).1, .returnedSelf,
            (v._set (v.x + c * step) (v.y + s * step) v.z).2) := by
      unfold ObservableVector3d.moveTowards
      simp only [hsqrt, ← hc, ← hs]
      rw [if_neg hcond]
    have hkx : (v.x + c * step) - t.x = c * (step - d) := by
      linear_combination hcos
    have hky : (v.y + s * step) - t.y = s * (step - d) := by
      linear_combination hsin
    have hdist :
        ((v.x + c * step) - t.x) * ((v.x + c * step) - t.x) +
          ((v.y + s * step) - t.y) * ((v.y + s * step) - t.y) =
          (d - step) * (d - step) := by
      rw [hkx, hky]
      linear_combination ((step - d) * (step - d)) * hcs
    refine ⟨?_, ?_, ?_, hdist, ?_⟩
    · rw [hbranch]
    · rw [hbranch]
      rfl
    · linear_combination (step * step) * hcs
    · intro hstep
      rw [hdist]
      nlinarith [mul_pos hdpos (neg_pos.mpr hstep)]

/-- Claim C4 witness for the amended claim: `this = (0, 0, 1)`,
`target = (3, 4, 0)` at distance `d = 5`, `step = -1`, with the exact
library values at this call site (`sqrt 25 = 5`, direction cosines `3/5`
and `4/5`): the stepping branch is taken and the vector ends strictly
farther from the target than the distance 5 it started at. -/
theorem moveTowards_spec_witness :
    (ObservableVector3d.moveTowards (fun _ _ => 0) (fun _ => (3 : ℚ) / 5)
        (fun _ => (4 : ℚ) / 5) (fun _ => 5)
        ⟨0, 0, 1, cbNone, none⟩ ⟨3, 4, some 0⟩ (-1)).2.1 =
      MoveTowardsResult.returnedSelf
    ∧ (5 : ℚ) * 5 <
        (((0 : ℚ) + 3 / 5 * (-1)) - 3) * (((0 : ℚ) + 3 / 5 * (-1)) - 3) +
        (((0 : ℚ) + 4 / 5 * (-1)) - 4) * (((0 : ℚ) + 4 / 5 * (-1)) - 4) := by
  have h := (moveTowards_spec (fun _ _ => 0) (fun _ => (3 : ℚ) / 5)
    (fun _ => (4 : ℚ) / 5) (fun _ => 5) ⟨0, 0, 1, cbNone, none⟩ ⟨3, 4, some 0⟩
    (-1) 5 (by norm_num) (by norm_num) (by norm_num) (by norm_num)
    (by norm_num)).2 (by norm_num)
  exact ⟨h.1, h.2.2.2.2 (by norm_num)⟩

end MelonJS
